import Mathlib

/-!
Verification development for the AskVinny agent-performance dashboard
(`src/app.py`).  The program loads a weekly metrics table from SQL
(`load_weekly_data`), resolves a user-chosen period (Week / Month /
Custom), aggregates viewings and tenants per agent over the period
(with a zero-fill merge over the universe of agents and a ranking
sort), and computes a whole-dataset performance summary for one agent.

Modelling conventions:
* Calendar dates are `Date` records (year / month / day); comparison of
  dates is by the numeric key `year*10000 + month*100 + day`, which
  agrees with calendar order for well-formed dates.
* `DATE_TRUNC('week', d)` (Monday of the ISO week of `d`) is modelled
  via a day-ordinal conversion (days since 1 March of year 0, the
  standard civil-calendar algorithm).
* SQL `ROUND(x, 1)` on the nonnegative percentage `num/den*100` is
  modelled exactly in integer arithmetic as the number of
  tenths-of-a-percent, rounding half up (= half away from zero for
  nonnegative values): `(2000*num + den) / (2*den)`.  Python's
  `round(v, 1)` in the summary block is modelled the same way; the two
  agree except at exact representable ties, which no value in this
  development hits.
* pandas `sort_values` (default `kind='quicksort'`) documents only
  that the result is sorted by the key; it is not documented to be
  stable, so the relative order of rows with equal keys is unspecified.
  Its contract is therefore modelled by the relation
  `sort_values_spec` (some permutation of the rows, non-increasing in
  the key); `rank_sorted` is one admissible output, used as the
  concretely rendered dashboard value.
-/

/-- A calendar date (year, month 1..12, day 1..31). -/
structure Date where
  year : Nat
  month : Nat
  day : Nat
deriving DecidableEq

/-- Numeric key realising calendar order on well-formed dates
(pandas/SQL date comparison). -/
def dateKey (d : Date) : Nat :=
  d.year * 10000 + d.month * 100 + d.day

/-- Gregorian leap-year rule. -/
def isLeap (y : Nat) : Bool :=
  (y % 4 == 0 && y % 100 != 0) || y % 400 == 0

/-- Number of days in a month (Gregorian calendar). -/
def daysInMonth (y m : Nat) : Nat :=
  if m == 2 then (if isLeap y then 29 else 28)
  else if m == 4 || m == 6 || m == 9 || m == 11 then 30
  else 31

/-- Successor day in the calendar. -/
def nextDay (d : Date) : Date :=
  if d.day < daysInMonth d.year d.month then ⟨d.year, d.month, d.day + 1⟩
  else if d.month < 12 then ⟨d.year, d.month + 1, 1⟩
  else ⟨d.year + 1, 1, 1⟩

/-- Addition of days: `addDays d n` is `d + timedelta(days=n)` and SQL
`d + INTERVAL 'n days'`. -/
def addDays (d : Date) : Nat → Date
  | 0 => d
  | n + 1 => nextDay (addDays d n)

/-- Day count since 1 March of year 0 (standard civil-calendar
algorithm, specialised to nonnegative years). -/
def toOrdinal (d : Date) : Nat :=
  let y := d.year - (if d.month ≤ 2 then 1 else 0)
  let era := y / 400
  let yoe := y % 400
  let doy := (153 * (if 2 < d.month then d.month - 3 else d.month + 9) + 2) / 5 + d.day - 1
  let doe := yoe * 365 + yoe / 4 - yoe / 100 + doy
  era * 146097 + doe

/-- Inverse of `toOrdinal` (standard civil-calendar algorithm). -/
def fromOrdinal (z : Nat) : Date :=
  let era := z / 146097
  let doe := z % 146097
  let yoe := (doe - doe / 1460 + doe / 36524 - doe / 146096) / 365
  let y := yoe + era * 400
  let doy := doe - (365 * yoe + yoe / 4 - yoe / 100)
  let mp := (5 * doy + 2) / 153
  let dd := doy - (153 * mp + 2) / 5 + 1
  let m := if mp < 10 then mp + 3 else mp - 9
  ⟨y + (if m ≤ 2 then 1 else 0), m, dd⟩

/-- Monday of the week containing the given day ordinal
(`toOrdinal ⟨2024,1,1⟩ % 7 = 5` and 2024-01-01 is a Monday, so
weekday-from-Monday is `(n + 2) % 7`). -/
def mondayOrdinal (n : Nat) : Nat :=
  n - (n + 2) % 7

/-- The Monday of the ISO week of `d`: SQL `DATE_TRUNC('week', d)::date`. -/
def weekTrunc (d : Date) : Date :=
  fromOrdinal (mondayOrdinal (toOrdinal d))

/-- SQL `ROUND(num::NUMERIC / NULLIF(den,0) * 100, 1)`, as an optional
count of tenths-of-a-percent: `none` when the denominator is zero,
otherwise `num/den*100` rounded half-up to one decimal. -/
def ratePct10 (num den : Nat) : Option Nat :=
  if den = 0 then none else some ((2000 * num + den) / (2 * den))

/-- A row of the `viewings` table after date parsing
(`TO_DATE("Date", 'DD/MM/YYYY')`); `personId` is nullable. -/
structure ViewingRow where
  personId : Option Nat
  agent : String
  viewing_date : Date
deriving DecidableEq

/-- A row of the `prospects` table; `Applied` is nullable. -/
structure ProspectRow where
  personId : Nat
  applied : Option String
  status : String
deriving DecidableEq

/-- A row of `cleaned_viewings`: viewings whose `personId` is not null. -/
structure CleanedViewing where
  personId : Nat
  agent : String
  viewing_date : Date
deriving DecidableEq

/-- The `cleaned_viewings` CTE: drop rows with a null `personId`. -/
def cleaned_viewings (vs : List ViewingRow) : List CleanedViewing :=
  vs.filterMap (fun v => v.personId.map (fun pid => ⟨pid, v.agent, v.viewing_date⟩))

/-- One row of the weekly metrics table returned by `load_weekly_data`.
Rates are in tenths of a percent (`some 667` = 66.7%), `none` = SQL NULL. -/
structure WeeklyMetric where
  agent : String
  week_start : Date
  week_end : Date
  total_viewings : Nat
  applications : Nat
  tenants : Nat
  view_to_app_rate : Option Nat
  app_to_tenant_rate : Option Nat
  total_conversion_rate : Option Nat
deriving DecidableEq

/-- Comparison realising `ORDER BY week_start, agent` on the weekly group keys. -/
def weeklyKeyLe (k1 k2 : String × Date) : Prop :=
  dateKey k1.2 < dateKey k2.2 ∨ (dateKey k1.2 = dateKey k2.2 ∧ k1.1 ≤ k2.1)

instance : DecidableRel weeklyKeyLe := fun k1 k2 =>
  inferInstanceAs (Decidable
    (dateKey k1.2 < dateKey k2.2 ∨ (dateKey k1.2 = dateKey k2.2 ∧ k1.1 ≤ k2.1)))

/-- The rows of `cleaned_viewings` falling in the `(agent, week)` group. -/
def weeklyGroup (cv : List CleanedViewing) (a : String) (w : Date) : List CleanedViewing :=
  cv.filter (fun r => r.agent == a && weekTrunc r.viewing_date == w)

/-- Whether `p."Applied" IS NOT NULL` holds for some prospect row joined to this
person (the LEFT JOIN may match several prospect rows; `COUNT(DISTINCT
CASE ...)` counts a person once if any joined row qualifies). -/
def hasApplied (ps : List ProspectRow) (pid : Nat) : Bool :=
  ps.any (fun p => p.personId == pid && p.applied.isSome)

/-- Whether `p."Status" = 'Current'` holds for some prospect row joined to this person. -/
def isCurrent (ps : List ProspectRow) (pid : Nat) : Bool :=
  ps.any (fun p => p.personId == pid && p.status == "Current")

/-- The SQL query of `load_weekly_data`: group cleaned viewings by
`(agent, DATE_TRUNC('week', viewing_date))`, count distinct persons
(total / applied / current-tenant), and attach the three rounded rates;
rows ordered by `week_start, agent`. -/
def load_weekly_data (vs : List ViewingRow) (ps : List ProspectRow) : List WeeklyMetric :=
  let cv := cleaned_viewings vs
  let keys := (cv.map (fun r => (r.agent, weekTrunc r.viewing_date))).dedup
  (keys.insertionSort weeklyKeyLe).map (fun k =>
    let persons := ((weeklyGroup cv k.1 k.2).map (fun r => r.personId)).dedup
    let tv := persons.length
    let apps := (persons.filter (hasApplied ps)).length
    let ten := (persons.filter (isCurrent ps)).length
    { agent := k.1, week_start := k.2, week_end := addDays k.2 6,
      total_viewings := tv, applications := apps, tenants := ten,
      view_to_app_rate := ratePct10 apps tv,
      app_to_tenant_rate := ratePct10 ten apps,
      total_conversion_rate := ratePct10 ten tv })

/-- The resolved period `[start_date, end_date]` (labels are
display-only and out of scope). -/
structure PeriodSelection where
  start_date : Date
  end_date : Date
deriving DecidableEq

/-- Pandas `MonthEnd(1)` offset: roll forward to the next month-end
(to the following month's end if the date already is a month-end). -/
def monthEnd1 (d : Date) : Date :=
  let last := daysInMonth d.year d.month
  if d.day < last then ⟨d.year, d.month, last⟩
  else if d.month < 12 then ⟨d.year, d.month + 1, daysInMonth d.year (d.month + 1)⟩
  else ⟨d.year + 1, 1, 31⟩

/-- Week mode: `start_date = selected_date`, `end_date = selected_date
+ timedelta(days=6)`. -/
def resolve_week (selected_date : Date) : PeriodSelection :=
  ⟨selected_date, addDays selected_date 6⟩

/-- Month mode: `start_date = selected_month.replace(day=1)`,
`end_date = start_date + pd.offsets.MonthEnd(1)`. -/
def resolve_month (selected_month : Date) : PeriodSelection :=
  let s : Date := ⟨selected_month.year, selected_month.month, 1⟩
  ⟨s, monthEnd1 s⟩

/-- Custom mode: the two entered dates, unvalidated. -/
def resolve_custom (s e : Date) : PeriodSelection := ⟨s, e⟩

/-- The predicate of `df.query("@start_date <= week_start <= @end_date")`. -/
def inPeriod (s e : Date) (r : WeeklyMetric) : Bool :=
  decide (dateKey s ≤ dateKey r.week_start) && decide (dateKey r.week_start ≤ dateKey e)

/-- Filter step `period_df`: the weekly rows whose `week_start` lies in the period. -/
def period_df (df : List WeeklyMetric) (s e : Date) : List WeeklyMetric :=
  df.filter (inPeriod s e)

/-- The universe of agents, `all_agents = sorted(df["agent"].unique())`. -/
def all_agents (df : List WeeklyMetric) : List String :=
  ((df.map (fun r => r.agent)).dedup).insertionSort (· ≤ ·)

/-- One row of `agg_df` after the zero-fill merge. -/
structure AgentAggregate where
  agent : String
  total_viewings : Nat
  tenants : Nat
deriving DecidableEq

/-- The rows of a table belonging to one agent. -/
def agentRows (rows : List WeeklyMetric) (a : String) : List WeeklyMetric :=
  rows.filter (fun r => r.agent == a)

/-- Aggregation step `agg_df`: group `period_df` by agent summing `total_viewings` and
`tenants`, then left-merge onto `all_agents` with `fillna(0)` (an agent
absent from the period gets the empty sums, i.e. 0). -/
def agg_df (df : List WeeklyMetric) (s e : Date) : List AgentAggregate :=
  (all_agents df).map (fun a =>
    let rows := agentRows (period_df df s e) a
    { agent := a,
      total_viewings := (rows.map (fun r => r.total_viewings)).sum,
      tenants := (rows.map (fun r => r.tenants)).sum })

/-- Comparison used by `sort_values("total_viewings", ascending=False)`. -/
def rankLe (g1 g2 : AgentAggregate) : Prop :=
  g2.total_viewings ≤ g1.total_viewings

instance : DecidableRel rankLe := fun g1 g2 =>
  Nat.decLe g2.total_viewings g1.total_viewings

/-- One output admissible for
`agg_df.sort_values("total_viewings", ascending=False)` (see
`sort_values_spec`: the program pins down neither this nor any other
tie order), used as the concretely rendered rank order. -/
def rank_sorted (df : List WeeklyMetric) (s e : Date) : List AgentAggregate :=
  (agg_df df s e).insertionSort rankLe

/-- Rank order `agent_order`: the agent column of the rank-sorted aggregate. -/
def agent_order (df : List WeeklyMetric) (s e : Date) : List String :=
  (rank_sorted df s e).map (fun g => g.agent)

/-- The documented contract of
`sort_values("total_viewings", ascending=False)` with the default
`kind='quicksort'`: the output is some permutation of the input rows
that is non-increasing in the key.  Stability is not documented, so
nothing constrains the relative order of rows with equal keys. -/
def sort_values_spec (l out : List AgentAggregate) : Prop :=
  List.Perm out l ∧ out.Pairwise rankLe

instance (l out : List AgentAggregate) : Decidable (sort_values_spec l out) :=
  inferInstanceAs (Decidable (_ ∧ _))

instance : IsTotal AgentAggregate rankLe :=
  ⟨fun g1 g2 => Nat.le_total g2.total_viewings g1.total_viewings⟩

instance : IsTrans AgentAggregate rankLe :=
  ⟨fun _ _ _ hab hbc => le_trans hbc hab⟩

/-- Python `round((num/den*100) if den else 0, 1)` in tenths of a
percent: a zero denominator gives 0 (not null). -/
def sumRate10 (num den : Nat) : Nat :=
  if den = 0 then 0 else (2000 * num + den) / (2 * den)

/-- Earliest date of a list by calendar order (`Series.min()`). -/
def minDate (l : List Date) : Option Date :=
  l.foldl (fun acc d => match acc with
    | none => some d
    | some m => some (if dateKey d < dateKey m then d else m)) none

/-- Latest date of a list by calendar order (`Series.max()`). -/
def maxDate (l : List Date) : Option Date :=
  l.foldl (fun acc d => match acc with
    | none => some d
    | some m => some (if dateKey m < dateKey d then d else m)) none

/-- The record displayed by the Performance Summary section.  Rates in
tenths of a percent. -/
structure AgentSummary where
  total_viewings : Nat
  total_apps : Nat
  total_tenants : Nat
  overall_conv : Nat
  app_rate : Nat
  tenant_rate : Nat
  first_week_start : Option Date
  last_week_end : Option Date
deriving DecidableEq

/-- The summary block: filter the whole dataset to the selected agent,
sum the three counts, derive the three zero-guarded rates, and record
the display bounds `week_start.min()` / `week_end.max()`. -/
def performance_summary (df : List WeeklyMetric) (selected_agent : String) : AgentSummary :=
  let summary := df.filter (fun r => r.agent == selected_agent)
  let total_viewings := (summary.map (fun r => r.total_viewings)).sum
  let total_apps := (summary.map (fun r => r.applications)).sum
  let total_tenants := (summary.map (fun r => r.tenants)).sum
  { total_viewings := total_viewings
    total_apps := total_apps
    total_tenants := total_tenants
    overall_conv := sumRate10 total_tenants total_viewings
    app_rate := sumRate10 total_apps total_viewings
    tenant_rate := sumRate10 total_tenants total_apps
    first_week_start := minDate (summary.map (fun r => r.week_start))
    last_week_end := maxDate (summary.map (fun r => r.week_end)) }

/-- Everything one interaction renders: the ranking data, the rank
order, and the per-agent summary. -/
structure DashboardOutput where
  ranking : List AgentAggregate
  ranking_order : List String
  summary : AgentSummary
deriving DecidableEq

/-- One dashboard interaction: the aggregate view is scoped to the
resolved period, the summary block reads the full table `df`. -/
def run_dashboard (df : List WeeklyMetric) (s e : Date) (selected_agent : String) :
    DashboardOutput :=
  { ranking := agg_df df s e
    ranking_order := agent_order df s e
    summary := performance_summary df selected_agent }

/-! ### Facts about the rounded-rate arithmetic -/

/-- A rounded SQL rate is null exactly when its denominator is zero. -/
theorem ratePct10_eq_none_iff (num den : Nat) : ratePct10 num den = none ↔ den = 0 := by
  unfold ratePct10
  split_ifs with h <;> simp [h]

/-- A rounded rate whose numerator is at most its denominator is at
most 100% (1000 tenths of a percent). -/
theorem ratePct10_le_1000 {num den x : Nat} (hx : ratePct10 num den = some x)
    (h : num ≤ den) : x ≤ 1000 := by
  have hd : den ≠ 0 := by
    intro h0
    rw [(ratePct10_eq_none_iff num den).mpr h0] at hx
    cases hx
  have hx2 : x = (2000 * num + den) / (2 * den) := by
    unfold ratePct10 at hx
    rw [if_neg hd] at hx
    exact (Option.some.inj hx).symm
  have h2 : 0 < 2 * den := by omega
  have hlt : 2000 * num + den < 1001 * (2 * den) := by omega
  rw [hx2]
  exact Nat.lt_succ_iff.mp ((Nat.div_lt_iff_lt_mul h2).mpr hlt)

/-- Every month of the Gregorian calendar has more than one day. -/
theorem one_lt_daysInMonth (y m : Nat) : 1 < daysInMonth y m := by
  unfold daysInMonth
  split_ifs <;> omega

/-! ### Claim theorems -/

/-- C7: for every anchor date, Month mode resolves to the first day of
the anchor's month and the last day of that same month; in particular
anchor 2024-02-15 resolves to 2024-02-01 .. 2024-02-29 (leap year). -/
theorem month_mode_first_to_last (anchor : Date) :
    (resolve_month anchor).start_date = ⟨anchor.year, anchor.month, 1⟩
    ∧ (resolve_month anchor).end_date
        = ⟨anchor.year, anchor.month, daysInMonth anchor.year anchor.month⟩
    ∧ resolve_month ⟨2024, 2, 15⟩ = ⟨⟨2024, 2, 1⟩, ⟨2024, 2, 29⟩⟩ := by
  refine ⟨rfl, ?_, by decide⟩
  show monthEnd1 ⟨anchor.year, anchor.month, 1⟩ = _
  unfold monthEnd1
  exact if_pos (one_lt_daysInMonth anchor.year anchor.month)

set_option maxHeartbeats 2000000 in
/-- C8: for every anchor date, Week mode keeps the anchor exactly as
given (not snapped to Monday) and ends six days later; checked on the
mid-week anchor Wednesday 2024-01-03 (whose week's Monday is
2024-01-01) and across a month boundary. -/
theorem week_mode_anchor_plus_six (anchor : Date) :
    (resolve_week anchor).start_date = anchor
    ∧ (resolve_week anchor).end_date = addDays anchor 6
    ∧ (resolve_week ⟨2024, 1, 3⟩).start_date ≠ weekTrunc ⟨2024, 1, 3⟩
    ∧ weekTrunc ⟨2024, 1, 3⟩ = ⟨2024, 1, 1⟩
    ∧ (resolve_week ⟨2024, 1, 29⟩).end_date = ⟨2024, 2, 4⟩ :=
  ⟨rfl, by dsimp only [resolve_week], by decide, by decide, by decide⟩

/-- C9: the summary pane of a dashboard interaction depends only on the
full weekly table and the selected agent, never on the resolved period
(the summary block filters `df`, not `period_df`). -/
theorem summary_period_independent (df : List WeeklyMetric) (s1 e1 s2 e2 : Date)
    (a : String) :
    (run_dashboard df s1 e1 a).summary = (run_dashboard df s2 e2 a).summary := rfl

/-- First weekly row of the end-to-end example (spec testable property 8). -/
def exampleRow1 : WeeklyMetric :=
  { agent := "A", week_start := ⟨2024, 1, 1⟩, week_end := ⟨2024, 1, 7⟩,
    total_viewings := 10, applications := 5, tenants := 2,
    view_to_app_rate := ratePct10 5 10, app_to_tenant_rate := ratePct10 2 5,
    total_conversion_rate := ratePct10 2 10 }

/-- Second weekly row of the end-to-end example. -/
def exampleRow2 : WeeklyMetric :=
  { agent := "A", week_start := ⟨2024, 1, 8⟩, week_end := ⟨2024, 1, 14⟩,
    total_viewings := 8, applications := 4, tenants := 4,
    view_to_app_rate := ratePct10 4 8, app_to_tenant_rate := ratePct10 4 4,
    total_conversion_rate := ratePct10 4 8 }

/-- C2: on the two example rows for agent A, the Summary Calculator
yields totals 18 / 9 / 6 and rates 50.0%, 66.7%, 33.3% (500, 667, 333
tenths of a percent). -/
theorem summary_example_agent_A :
    performance_summary [exampleRow1, exampleRow2] "A"
      = { total_viewings := 18, total_apps := 9, total_tenants := 6,
          overall_conv := 333, app_rate := 500, tenant_rate := 667,
          first_week_start := some ⟨2024, 1, 1⟩,
          last_week_end := some ⟨2024, 1, 14⟩ } := by decide

/-- C6: in the Summary Calculator every zero denominator yields a rate
of 0 (not null): zero summed viewings force `app_rate` and
`overall_conv` to 0, zero summed applications force `tenant_rate` to 0. -/
theorem summary_zero_denominators (df : List WeeklyMetric) (a : String) :
    ((performance_summary df a).total_viewings = 0 →
        (performance_summary df a).app_rate = 0
        ∧ (performance_summary df a).overall_conv = 0)
    ∧ ((performance_summary df a).total_apps = 0 →
        (performance_summary df a).tenant_rate = 0) := by
  constructor
  · intro h
    simp only [performance_summary] at h ⊢
    rw [h]
    simp [sumRate10]
  · intro h
    simp only [performance_summary] at h ⊢
    rw [h]
    simp [sumRate10]

/-- Witness for the zero-denominator theorem at the empty table. -/
theorem summary_zero_denominators_witness :
    (performance_summary [] "A").app_rate = 0
    ∧ (performance_summary [] "A").overall_conv = 0
    ∧ (performance_summary [] "A").tenant_rate = 0 :=
  ⟨((summary_zero_denominators [] "A").1 (by decide)).1,
   ((summary_zero_denominators [] "A").1 (by decide)).2,
   (summary_zero_denominators [] "A").2 (by decide)⟩

/-- A small concrete weekly table used to instantiate the
universally-quantified theorems. -/
def sampleDf : List WeeklyMetric := [exampleRow1]

/-- C5: an inverted Custom range is not an error: the period filter
yields the empty set and the Aggregator returns every agent of the
dataset with zero sums. -/
theorem inverted_range_empty_filter (df : List WeeklyMetric) (s e : Date)
    (h : dateKey e < dateKey s) :
    period_df df s e = []
    ∧ agg_df df s e = (all_agents df).map (fun a => ⟨a, 0, 0⟩) := by
  have hp : period_df df s e = [] := by
    refine List.filter_eq_nil_iff.mpr fun r hr => ?_
    simp only [inPeriod, Bool.and_eq_true, decide_eq_true_eq]
    omega
  refine ⟨hp, ?_⟩
  simp [agg_df, agentRows, hp]

/-- Witness: the inverted range 2024-03-10 .. 2024-03-01 on a concrete
one-agent table. -/
theorem inverted_range_empty_filter_witness :
    dateKey ⟨2024, 3, 1⟩ < dateKey ⟨2024, 3, 10⟩
    ∧ period_df sampleDf ⟨2024, 3, 10⟩ ⟨2024, 3, 1⟩ = []
    ∧ agg_df sampleDf ⟨2024, 3, 10⟩ ⟨2024, 3, 1⟩
        = (all_agents sampleDf).map (fun a => ⟨a, 0, 0⟩) :=
  ⟨by decide,
   (inverted_range_empty_filter sampleDf ⟨2024, 3, 10⟩ ⟨2024, 3, 1⟩ (by decide)).1,
   (inverted_range_empty_filter sampleDf ⟨2024, 3, 10⟩ ⟨2024, 3, 1⟩ (by decide)).2⟩

/-- The non-null marker stored in the `Applied` column of a prospect. -/
def appliedMark : String := "yes"

/-- Concrete `viewings` rows: persons 1 and 2 viewed with agent A in
the week of 2024-01-01; one row has a null `personId` and is dropped. -/
def sampleViewings : List ViewingRow :=
  [{ personId := some 1, agent := "A", viewing_date := ⟨2024, 1, 2⟩ },
   { personId := some 2, agent := "A", viewing_date := ⟨2024, 1, 3⟩ },
   { personId := none, agent := "B", viewing_date := ⟨2024, 1, 2⟩ }]

/-- Concrete `prospects` rows: person 1 applied and is a current
tenant; person 2 is a current tenant who never applied (possible, since
`Status = 'Current'` does not require `Applied` to be non-null). -/
def sampleProspects : List ProspectRow :=
  [{ personId := 1, applied := some appliedMark, status := "Current" },
   { personId := 2, applied := none, status := "Current" }]

/-- The weekly row the loader produces from `sampleViewings` and
`sampleProspects`: 2 viewings, 1 application, 2 tenants, so
`app_to_tenant_rate` is 200.0% (2000 tenths). -/
def sampleWeeklyRow : WeeklyMetric :=
  { agent := "A", week_start := ⟨2024, 1, 1⟩, week_end := ⟨2024, 1, 7⟩,
    total_viewings := 2, applications := 1, tenants := 2,
    view_to_app_rate := some 500, app_to_tenant_rate := some 2000,
    total_conversion_rate := some 1000 }

/-- C1 (amended): in every loader row each rate is null iff its
denominator is zero; `view_to_app_rate` and `total_conversion_rate` are
bounded by 100% (1000 tenths), and `app_to_tenant_rate` is so bounded
only under the extra assumption `tenants ≤ applications`, which the
query does not guarantee. -/
theorem loader_rate_nulls_and_bounds (vs : List ViewingRow) (ps : List ProspectRow)
    (r : WeeklyMetric) (hr : r ∈ load_weekly_data vs ps) :
    (r.view_to_app_rate = none ↔ r.total_viewings = 0)
    ∧ (r.app_to_tenant_rate = none ↔ r.applications = 0)
    ∧ (r.total_conversion_rate = none ↔ r.total_viewings = 0)
    ∧ (∀ x, r.view_to_app_rate = some x → x ≤ 1000)
    ∧ (∀ x, r.total_conversion_rate = some x → x ≤ 1000)
    ∧ (r.tenants ≤ r.applications → ∀ x, r.app_to_tenant_rate = some x → x ≤ 1000) := by
  simp only [load_weekly_data] at hr
  obtain ⟨k, hk, rfl⟩ := List.mem_map.mp hr
  refine ⟨ratePct10_eq_none_iff _ _, ratePct10_eq_none_iff _ _, ratePct10_eq_none_iff _ _,
    ?_, ?_, ?_⟩
  · intro x hx
    exact ratePct10_le_1000 hx (List.length_filter_le _ _)
  · intro x hx
    exact ratePct10_le_1000 hx (List.length_filter_le _ _)
  · intro hta x hx
    exact ratePct10_le_1000 hx hta

set_option maxHeartbeats 2000000 in
/-- Witness: the loader row from the concrete sample tables has a
non-null `view_to_app_rate` (its denominator, 2 viewings, is nonzero)
bounded by 100%. -/
theorem loader_rate_nulls_and_bounds_witness :
    (sampleWeeklyRow.view_to_app_rate = none ↔ sampleWeeklyRow.total_viewings = 0)
    ∧ (500 : Nat) ≤ 1000 :=
  ⟨(loader_rate_nulls_and_bounds sampleViewings sampleProspects sampleWeeklyRow (by decide)).1,
   (loader_rate_nulls_and_bounds sampleViewings sampleProspects sampleWeeklyRow
      (by decide)).2.2.2.1 500 (by decide)⟩

set_option maxHeartbeats 2000000 in
/-- Counterexample to C1 as stated: the loader produces a row whose
`app_to_tenant_rate` is 200.0% (2000 tenths), outside `[0, 100]`,
because person 2 is a current tenant without an application. -/
theorem loader_rate_above_100_counterexample :
    sampleWeeklyRow ∈ load_weekly_data sampleViewings sampleProspects
    ∧ sampleWeeklyRow.app_to_tenant_rate = some 2000
    ∧ ¬(2000 ≤ (1000 : Nat)) :=
  ⟨by decide, by decide, by decide⟩

set_option maxHeartbeats 2000000 in
/-- C10: every loader row satisfies `applications ≤ total_viewings` and
`tenants ≤ total_viewings` unconditionally (all three are counts of
subsets of the same distinct viewing persons), while no structural
guarantee yields `tenants ≤ applications`: a concrete input produces a
row with more tenants than applications. -/
theorem weekly_counts_structural :
    (∀ (vs : List ViewingRow) (ps : List ProspectRow), ∀ r ∈ load_weekly_data vs ps,
        r.applications ≤ r.total_viewings ∧ r.tenants ≤ r.total_viewings)
    ∧ ∃ vs ps, ∃ r ∈ load_weekly_data vs ps, r.applications < r.tenants := by
  constructor
  · intro vs ps r hr
    simp only [load_weekly_data] at hr
    obtain ⟨k, hk, rfl⟩ := List.mem_map.mp hr
    exact ⟨List.length_filter_le _ _, List.length_filter_le _ _⟩
  · exact ⟨sampleViewings, sampleProspects, sampleWeeklyRow, by decide, by decide⟩

set_option maxHeartbeats 2000000 in
/-- Witness: the structural bounds instantiated on the loader row of
the concrete sample tables. -/
theorem weekly_counts_structural_witness :
    sampleWeeklyRow.applications ≤ sampleWeeklyRow.total_viewings
    ∧ sampleWeeklyRow.tenants ≤ sampleWeeklyRow.total_viewings :=
  weekly_counts_structural.1 sampleViewings sampleProspects sampleWeeklyRow (by decide)

/-- C3: for every table and period, the Aggregator output has exactly
one row per agent of the full dataset — its agent column is exactly the
sorted duplicate-free universe of agents — and an agent with no rows in
the period gets zero sums. -/
theorem aggregate_zero_fill_universe (df : List WeeklyMetric) (s e : Date) :
    (agg_df df s e).map (fun g => g.agent) = all_agents df
    ∧ (all_agents df).Nodup
    ∧ (∀ a, a ∈ all_agents df ↔ a ∈ df.map (fun r => r.agent))
    ∧ ∀ g ∈ agg_df df s e, (∀ r ∈ period_df df s e, r.agent ≠ g.agent) →
        g.total_viewings = 0 ∧ g.tenants = 0 := by
  refine ⟨?_, ?_, ?_, ?_⟩
  · simp only [agg_df, List.map_map]
    exact List.map_id _
  · exact (List.perm_insertionSort _ _).nodup_iff.mpr (List.nodup_dedup _)
  · intro a
    simp only [all_agents]
    rw [(List.perm_insertionSort _ _).mem_iff, List.mem_dedup]
  · intro g hg hno
    simp only [agg_df, List.mem_map] at hg
    obtain ⟨a, ha, rfl⟩ := hg
    have hnil : agentRows (period_df df s e) a = [] := by
      refine List.filter_eq_nil_iff.mpr fun r hr => ?_
      simpa using hno r hr
    constructor
    · show (List.map _ (agentRows (period_df df s e) a)).sum = 0
      rw [hnil]
      rfl
    · show (List.map _ (agentRows (period_df df s e) a)).sum = 0
      rw [hnil]
      rfl

/-- Witness: on a one-row January table, a February period leaves agent
A with zero sums in the aggregate. -/
theorem aggregate_zero_fill_universe_witness :
    (⟨"A", 0, 0⟩ : AgentAggregate) ∈ agg_df sampleDf ⟨2024, 2, 1⟩ ⟨2024, 2, 28⟩
    ∧ AgentAggregate.total_viewings ⟨"A", 0, 0⟩ = 0
    ∧ AgentAggregate.tenants ⟨"A", 0, 0⟩ = 0 :=
  ⟨by decide,
   ((aggregate_zero_fill_universe sampleDf ⟨2024, 2, 1⟩ ⟨2024, 2, 28⟩).2.2.2
      ⟨"A", 0, 0⟩ (by decide) (by decide)).1,
   ((aggregate_zero_fill_universe sampleDf ⟨2024, 2, 1⟩ ⟨2024, 2, 28⟩).2.2.2
      ⟨"A", 0, 0⟩ (by decide) (by decide)).2⟩

/-- The ranking invariant claimed by the spec: viewings non-increasing,
and agents with equal viewings in alphabetical order. -/
def rankRel (g1 g2 : AgentAggregate) : Prop :=
  g2.total_viewings ≤ g1.total_viewings
  ∧ (g1.total_viewings = g2.total_viewings → g1.agent < g2.agent)

/-- Alphabetical order on the two sample agent names. -/
theorem agent_A_lt_B : ("A" : String) < "B" :=
  String.lt_iff_toList_lt.mpr (by decide)

/-- A weekly row for agent B. -/
def tieRowB : WeeklyMetric :=
  { agent := "B", week_start := ⟨2024, 1, 1⟩, week_end := ⟨2024, 1, 7⟩,
    total_viewings := 5, applications := 2, tenants := 1,
    view_to_app_rate := ratePct10 2 5, app_to_tenant_rate := ratePct10 1 2,
    total_conversion_rate := ratePct10 1 5 }

/-- A weekly row for agent A with the same viewings sum as agent B's. -/
def tieRowA : WeeklyMetric :=
  { agent := "A", week_start := ⟨2024, 1, 8⟩, week_end := ⟨2024, 1, 14⟩,
    total_viewings := 5, applications := 3, tenants := 1,
    view_to_app_rate := ratePct10 3 5, app_to_tenant_rate := ratePct10 1 3,
    total_conversion_rate := ratePct10 1 5 }

/-- A weekly table on which agents A and B tie on summed viewings. -/
def tieDf : List WeeklyMetric := [tieRowB, tieRowA]

/-- The agent universe of the tied table, alphabetically sorted. -/
theorem tie_universe : all_agents tieDf = ["A", "B"] := by
  have hd : (tieDf.map (fun r => r.agent)).dedup = ["B", "A"] := by decide
  have hBA : ¬(("B" : String) ≤ "A") := not_le.mpr agent_A_lt_B
  simp only [all_agents, hd]
  simp [List.insertionSort, List.orderedInsert, hBA]

/-- The aggregate of the tied table over January 2024. -/
theorem tie_agg :
    agg_df tieDf ⟨2024, 1, 1⟩ ⟨2024, 1, 31⟩ = [⟨"A", 5, 1⟩, ⟨"B", 5, 1⟩] := by
  simp only [agg_df, tie_universe]
  decide

/-- Counterexample to C4 as stated: on a table where agents A and B tie
on summed viewings, the output [B, A] satisfies everything
`sort_values` documents — a permutation of the aggregate rows,
non-increasing in the key — yet its tied agents are not in alphabetical
order, so the program does not guarantee the claimed tie order. -/
theorem ranking_ties_counterexample :
    sort_values_spec (agg_df tieDf ⟨2024, 1, 1⟩ ⟨2024, 1, 31⟩)
        [⟨"B", 5, 1⟩, ⟨"A", 5, 1⟩]
    ∧ ¬ List.Pairwise rankRel [(⟨"B", 5, 1⟩ : AgentAggregate), ⟨"A", 5, 1⟩] := by
  refine ⟨⟨?_, ?_⟩, ?_⟩
  · rw [tie_agg]
    decide
  · decide
  · intro h
    have h1 := (List.pairwise_cons.mp h).1 ⟨"A", 5, 1⟩ (List.mem_cons_self _ _)
    exact absurd (h1.2 rfl) (lt_asymm agent_A_lt_B)

/-- C4 (amended): every rank order admissible for `sort_values` — which
is all the program guarantees — is non-increasing in summed
`total_viewings` and consists of exactly the aggregate rows; the order
of agents with equal sums is unspecified.  The concretely rendered
`rank_sorted` is one admissible output. -/
theorem ranking_nonincreasing_any_admissible (df : List WeeklyMetric) (s e : Date) :
    (∀ out, sort_values_spec (agg_df df s e) out →
        out.Pairwise rankLe ∧ ∀ g, g ∈ out ↔ g ∈ agg_df df s e)
    ∧ sort_values_spec (agg_df df s e) (rank_sorted df s e) := by
  constructor
  · intro out hout
    exact ⟨hout.2, fun g => hout.1.mem_iff⟩
  · exact ⟨List.perm_insertionSort _ _, List.sorted_insertionSort _ _⟩

/-- Witness: the admissibility hypothesis discharged on the singleton
aggregate of the one-agent sample table. -/
theorem ranking_nonincreasing_any_admissible_witness :
    List.Pairwise rankLe [(⟨"A", 10, 2⟩ : AgentAggregate)]
    ∧ ((⟨"A", 10, 2⟩ : AgentAggregate) ∈ [(⟨"A", 10, 2⟩ : AgentAggregate)]
        ↔ (⟨"A", 10, 2⟩ : AgentAggregate) ∈ agg_df sampleDf ⟨2024, 1, 1⟩ ⟨2024, 1, 31⟩) :=
  ⟨((ranking_nonincreasing_any_admissible sampleDf ⟨2024, 1, 1⟩ ⟨2024, 1, 31⟩).1
      [⟨"A", 10, 2⟩] (by decide)).1,
   ((ranking_nonincreasing_any_admissible sampleDf ⟨2024, 1, 1⟩ ⟨2024, 1, 31⟩).1
      [⟨"A", 10, 2⟩] (by decide)).2 ⟨"A", 10, 2⟩⟩
